import Mathlib

/-!
# Gesture-direction classifier of the APDS9960 driver

A shallow embedding of the gesture part of `src/Arduino_APDS9960.cpp`:
the constructor, `setGestureThreshold`, the sample loop of `handleGesture`
(and its body, one FIFO quad at a time), the polling loop of
`handleGesture`, `gestureAvailable` and `readGesture`.

Machine integers are natural numbers: every channel byte and the threshold
are `uint8_t` values that are only compared, never added, so no wrap-around
can occur.  The two direction fields are `int`s that only ever hold the
codes 0 (none), 1 (up), 2 (down), 3 (left), 4 (right).
-/

namespace Arduino_APDS9960

/-- Modelled from the spec: the enumeration behind `GESTURE_NONE`, `GESTURE_UP`,
`GESTURE_DOWN`, `GESTURE_LEFT` and `GESTURE_RIGHT` is declared in the header
`Arduino_APDS9960.h`, which is not among the sources; the spec gives a closed
enumeration of five results {None, Up, Down, Left, Right}. -/
inductive Gesture where
  | GESTURE_NONE
  | GESTURE_UP
  | GESTURE_DOWN
  | GESTURE_LEFT
  | GESTURE_RIGHT
  deriving DecidableEq, Repr

open Gesture

/-- The fields of the `APDS9960` object that the gesture code reads or writes
(the bus handle `_wire` carries no classifier state). -/
structure Device where
  _intPin : Int
  _gestureEnabled : Bool
  _gestureIn : Bool
  _gestureDirection : Nat
  _gestureDirIn : Nat
  _gestureThreshold : Nat
  _detectedGesture : Gesture
  deriving DecidableEq, Repr

/-- One FIFO quad, in the order the sample loop reads it: `u`, `d`, `l`, `r`. -/
structure Sample where
  u : Nat
  d : Nat
  l : Nat
  r : Nat
  deriving DecidableEq, Repr

/-- The constructor `APDS9960::APDS9960(wire, intPin)`. -/
def APDS9960 (intPin : Int) : Device :=
  { _intPin := intPin
    _gestureEnabled := false
    _gestureIn := false
    _gestureDirection := 0
    _gestureDirIn := 0
    _gestureThreshold := 30
    _detectedGesture := GESTURE_NONE }

/-- The method `setGestureThreshold`. -/
def setGestureThreshold (st : Device) (threshold : Nat) : Device :=
  { st with _gestureThreshold := threshold }

/-- The four dominance tests of the sample loop, run in source order on the
value of `_gestureDirection`. -/
def dominanceStep (s : Sample) (dir : Nat) : Nat :=
  let dir := if s.u > s.l ∧ s.u > s.r ∧ s.u > s.d then 1 else dir
  let dir := if s.d > s.l ∧ s.d > s.r ∧ s.d > s.u then 2 else dir
  let dir := if s.l > s.r ∧ s.l > s.u ∧ s.l > s.d then 3 else dir
  let dir := if s.r > s.l ∧ s.r > s.u ∧ s.r > s.d then 4 else dir
  dir

/-- The four pairing tests of the decay branch, run in source order on the
value of `_detectedGesture`. -/
def pairingStep (dir dirIn : Nat) (g : Gesture) : Gesture :=
  let g := if dir = 1 ∧ dirIn = 2 then GESTURE_DOWN else g
  let g := if dir = 2 ∧ dirIn = 1 then GESTURE_UP else g
  let g := if dir = 3 ∧ dirIn = 4 then GESTURE_RIGHT else g
  let g := if dir = 4 ∧ dirIn = 3 then GESTURE_LEFT else g
  g

/-- The body of the sample loop of `handleGesture` for one quad. -/
def processSample (st : Device) (s : Sample) : Device :=
  let st := { st with _gestureDirection := dominanceStep s st._gestureDirection }
  if s.u < st._gestureThreshold ∧ s.d < st._gestureThreshold ∧
      s.l < st._gestureThreshold ∧ s.r < st._gestureThreshold then
    let st := { st with _gestureIn := true }
    if st._gestureDirection ≠ 0 then
      { st with
        _detectedGesture :=
          pairingStep st._gestureDirection st._gestureDirIn st._detectedGesture
        _gestureDirection := 0
        _gestureDirIn := 0 }
    else
      st
  else if st._gestureIn = true ∧ st._gestureDirection ≠ 0 then
    { st with _gestureIn := false, _gestureDirIn := st._gestureDirection }
  else
    st

/-- A batch of quads run through the loop body in arrival order. -/
def processSamples (st : Device) (samples : List Sample) : Device :=
  samples.foldl processSample st

/-- The quad the loop reads at index `i` of `fifo_data`: the four bytes at
`i`, `i+1`, `i+2`, `i+3`, whatever `bytes_read` is. -/
def quadAt (fifo_data : List Nat) (i : Nat) : Sample :=
  { u := fifo_data.getD i 0
    d := fifo_data.getD (i + 1) 0
    l := fifo_data.getD (i + 2) 0
    r := fifo_data.getD (i + 3) 0 }

/-- The sample loop `for (int i = 0; i < bytes_read;)` of `handleGesture`,
from index `i`; the first argument bounds the number of iterations. -/
def sampleLoopFrom : Nat → List Nat → Nat → Nat → Device → Device
  | 0, _, _, _, st => st
  | fuel + 1, fifo_data, bytes_read, i, st =>
    if i < bytes_read then
      sampleLoopFrom fuel fifo_data bytes_read (i + 4) (processSample st (quadAt fifo_data i))
    else
      st

/-- The sample loop from `i = 0`; `bytes_read` iterations are more than it
can make, since every iteration advances `i` by four. -/
def sampleLoop (fifo_data : List Nat) (bytes_read : Nat) (st : Device) : Device :=
  sampleLoopFrom bytes_read fifo_data bytes_read 0 st

/-- What one turn of the polling loop of `handleGesture` gets from the bus:
the value of `gestureFIFOAvailable()`, then the value of `readGFIFO_U` and
the 128-byte buffer as it stands after that read. -/
structure FifoPoll where
  available : Int
  bytes_read : Nat
  fifo_data : List Nat
  deriving DecidableEq, Repr

/-- The method `handleGesture`, run against the bus answers `polls`, one
entry per turn of its `while (true)` loop.  The result is `none` when the
loop has not returned after all listed turns. -/
def handleGesture : List FifoPoll → Device → Option Device
  | [], _ => none
  | p :: polls, st =>
    if p.available ≤ 0 then some st
    else if p.bytes_read = 0 then some st
    else if p.bytes_read < 4 then handleGesture polls st
    else handleGesture polls (sampleLoop p.fifo_data p.bytes_read st)

/-- What `gestureAvailable` consults outside the object: the level read from
the interrupt pin (`pinLow` is `digitalRead(_intPin) == LOW`), the value of
its own call of `gestureFIFOAvailable()`, and the bus answers seen by
`handleGesture`. -/
structure Inputs where
  pinLow : Bool
  probe : Int
  polls : List FifoPoll
  deriving DecidableEq, Repr

/-- The last two statements of `gestureAvailable`: the call of
`handleGesture` and the test of `_detectedGesture`. -/
def gestureAvailableTail (st : Device) (inp : Inputs) : Option (Int × Device) :=
  match handleGesture inp.polls st with
  | none => none
  | some st => some (if st._detectedGesture = GESTURE_NONE then 0 else 1, st)

/-- The method `gestureAvailable`: the returned integer and the object
afterwards, or `none` when `handleGesture` has not returned. -/
def gestureAvailable (st : Device) (inp : Inputs) : Option (Int × Device) :=
  let st := if st._gestureEnabled = false then { st with _gestureEnabled := true } else st
  if st._intPin > -1 then
    if inp.pinLow = false then some (0, st) else gestureAvailableTail st inp
  else if inp.probe ≤ 0 then some (0, st)
  else gestureAvailableTail st inp

/-- The method `readGesture`: the returned gesture and the object afterwards. -/
def readGesture (st : Device) : Gesture × Device :=
  let gesture := st._detectedGesture
  let st := { st with _detectedGesture := GESTURE_NONE }
  (gesture, st)

/-- The quantity the spec calls `pollAvailable`: the test on which
`gestureAvailable` ends. -/
def pollAvailable (st : Device) : Bool :=
  decide (st._detectedGesture ≠ GESTURE_NONE)

/-! ## Vocabulary of the claims -/

/-- All four channels of the sample are strictly below the threshold. -/
def allBelow (threshold : Nat) (s : Sample) : Prop :=
  s.u < threshold ∧ s.d < threshold ∧ s.l < threshold ∧ s.r < threshold

instance (threshold : Nat) (s : Sample) : Decidable (allBelow threshold s) := by
  unfold allBelow; infer_instance

/-- The channel with direction code `x` is strictly greater than each of the
other three (no channel for a code outside 1..4). -/
def dominantIn (x : Nat) (s : Sample) : Prop :=
  (x = 1 ∧ s.u > s.l ∧ s.u > s.r ∧ s.u > s.d) ∨
  (x = 2 ∧ s.d > s.l ∧ s.d > s.r ∧ s.d > s.u) ∨
  (x = 3 ∧ s.l > s.r ∧ s.l > s.u ∧ s.l > s.d) ∨
  (x = 4 ∧ s.r > s.l ∧ s.r > s.u ∧ s.r > s.d)

instance (x : Nat) (s : Sample) : Decidable (dominantIn x s) := by
  unfold dominantIn; infer_instance

/-- No channel is strictly greater than each of the other three. -/
def noDominant (s : Sample) : Prop :=
  ¬ (s.u > s.l ∧ s.u > s.r ∧ s.u > s.d) ∧ ¬ (s.d > s.l ∧ s.d > s.r ∧ s.d > s.u) ∧
  ¬ (s.l > s.r ∧ s.l > s.u ∧ s.l > s.d) ∧ ¬ (s.r > s.l ∧ s.r > s.u ∧ s.r > s.d)

instance (s : Sample) : Decidable (noDominant s) := by
  unfold noDominant; infer_instance

/-- The largest of the four channel values. -/
def maxChannel (s : Sample) : Nat :=
  max (max s.u s.d) (max s.l s.r)

/-- The maximum channel value is attained by two or more channels. -/
def tiedAtMax (s : Sample) : Prop :=
  2 ≤ (if s.u = maxChannel s then 1 else 0) + (if s.d = maxChannel s then 1 else 0) +
      (if s.l = maxChannel s then 1 else 0) + (if s.r = maxChannel s then 1 else 0)

instance (s : Sample) : Decidable (tiedAtMax s) := by
  unfold tiedAtMax; infer_instance

/-- The gesture named after a direction code. -/
def gestureNamed : Nat → Gesture
  | 1 => GESTURE_UP
  | 2 => GESTURE_DOWN
  | 3 => GESTURE_LEFT
  | 4 => GESTURE_RIGHT
  | _ => GESTURE_NONE

/-- The opposite direction code: up/down and left/right. -/
def opposite : Nat → Nat
  | 1 => 2
  | 2 => 1
  | 3 => 4
  | 4 => 3
  | _ => 0

/-- The gate of `gestureAvailable`: with an interrupt pin, the pin reads LOW;
without one, `gestureFIFOAvailable()` is positive. -/
def gateOpen (st : Device) (inp : Inputs) : Bool :=
  if st._intPin > -1 then inp.pinLow else decide (0 < inp.probe)

/-- The object after the first statement of `gestureAvailable`. -/
def gestureEnabledSet (st : Device) : Device :=
  if st._gestureEnabled = false then { st with _gestureEnabled := true } else st

/-- A bus answer on which the polling loop of `handleGesture` returns. -/
def stopsPolling (p : FifoPoll) : Prop :=
  p.available ≤ 0 ∨ p.bytes_read = 0

instance (p : FifoPoll) : Decidable (stopsPolling p) := by
  unfold stopsPolling; infer_instance

/-! ## The loop body, branch by branch -/

theorem dominanceStep_of_dominantIn (x : Nat) (s : Sample) (dir : Nat)
    (h : dominantIn x s) : dominanceStep s dir = x := by
  unfold dominantIn at h
  unfold dominanceStep
  rcases h with ⟨rfl, h⟩ | ⟨rfl, h⟩ | ⟨rfl, h⟩ | ⟨rfl, h⟩ <;>
    simp only [] <;> split_ifs <;> omega

theorem dominanceStep_of_noDominant (s : Sample) (dir : Nat)
    (h : noDominant s) : dominanceStep s dir = dir := by
  obtain ⟨h1, h2, h3, h4⟩ := h
  simp [dominanceStep, h1, h2, h3, h4]

theorem dominanceStep_ne_zero (s : Sample) (dir : Nat) (h : dir ≠ 0) :
    dominanceStep s dir ≠ 0 := by
  unfold dominanceStep
  simp only []
  split_ifs <;> omega

theorem dominantIn_ne_zero (x : Nat) (s : Sample) (h : dominantIn x s) : x ≠ 0 := by
  unfold dominantIn at h
  omega

theorem pairingStep_same (x : Nat) (g : Gesture) : pairingStep x x g = g := by
  unfold pairingStep
  simp only []
  split_ifs <;> first | rfl | omega

theorem pairingStep_entry_zero (x : Nat) (g : Gesture) : pairingStep x 0 g = g := by
  simp [pairingStep]

theorem pairingStep_opposite (x : Nat) (g : Gesture) (hx : x = 1 ∨ x = 2 ∨ x = 3 ∨ x = 4) :
    pairingStep (opposite x) x g = gestureNamed x := by
  rcases hx with rfl | rfl | rfl | rfl <;> simp [pairingStep, opposite, gestureNamed]

/-- The decay branch taken with a direction held: the pairing is evaluated
and both direction fields are cleared. -/
theorem processSample_decay (st : Device) (s : Sample)
    (hb : allBelow st._gestureThreshold s) (hd : dominanceStep s st._gestureDirection ≠ 0) :
    processSample st s =
      { st with
        _gestureIn := true
        _detectedGesture :=
          pairingStep (dominanceStep s st._gestureDirection) st._gestureDirIn st._detectedGesture
        _gestureDirection := 0
        _gestureDirIn := 0 } := by
  unfold allBelow at hb
  simp [processSample, hb, hd]

/-- The decay branch taken with no direction held: only `_gestureIn` is set. -/
theorem processSample_decay_idle (st : Device) (s : Sample)
    (hb : allBelow st._gestureThreshold s) (hd : dominanceStep s st._gestureDirection = 0) :
    processSample st s = { st with _gestureIn := true, _gestureDirection := 0 } := by
  unfold allBelow at hb
  simp [processSample, hb, hd]

/-- A sample above the noise floor: the re-entry test on the direction after
the dominance step. -/
theorem processSample_signal (st : Device) (s : Sample)
    (hb : ¬ allBelow st._gestureThreshold s) :
    processSample st s =
      if st._gestureIn = true ∧ dominanceStep s st._gestureDirection ≠ 0 then
        { st with
          _gestureIn := false
          _gestureDirection := dominanceStep s st._gestureDirection
          _gestureDirIn := dominanceStep s st._gestureDirection }
      else
        { st with _gestureDirection := dominanceStep s st._gestureDirection } := by
  unfold allBelow at hb
  simp [processSample, hb]

theorem processSample_threshold (st : Device) (s : Sample) :
    (processSample st s)._gestureThreshold = st._gestureThreshold := by
  unfold processSample
  simp only []
  split_ifs <;> rfl

/-! ## Consumption -/

/-- C5: `readGesture` returns the gesture held before the call, leaves
`GESTURE_NONE` in its place and changes no other field; a second call with
nothing processed in between returns `GESTURE_NONE`. -/
theorem readGesture_read_and_clear (st : Device) :
    (readGesture st).1 = st._detectedGesture ∧
    (readGesture st).2 = { st with _detectedGesture := GESTURE_NONE } ∧
    (readGesture st).2._detectedGesture = GESTURE_NONE ∧
    (readGesture st).2._gestureIn = st._gestureIn ∧
    (readGesture st).2._gestureDirection = st._gestureDirection ∧
    (readGesture st).2._gestureDirIn = st._gestureDirIn ∧
    (readGesture st).2._gestureThreshold = st._gestureThreshold ∧
    (readGesture (readGesture st).2).1 = GESTURE_NONE :=
  ⟨rfl, rfl, rfl, rfl, rfl, rfl, rfl, rfl⟩

/-! ## The decay step -/

/-- C2: on a sample with all four channels below the threshold and a
direction held after the dominance step (the exit), paired with
`_gestureDirIn` before the sample (the entry): (up, down) gives
`GESTURE_DOWN`, (down, up) gives `GESTURE_UP`, (left, right) gives
`GESTURE_RIGHT`, (right, left) gives `GESTURE_LEFT`, and every other pair
leaves `_detectedGesture` as it was. -/
theorem decay_pairing_table (st : Device) (s : Sample)
    (hb : allBelow st._gestureThreshold s)
    (hexit : dominanceStep s st._gestureDirection ≠ 0) :
    (dominanceStep s st._gestureDirection = 1 ∧ st._gestureDirIn = 2 →
      (processSample st s)._detectedGesture = GESTURE_DOWN) ∧
    (dominanceStep s st._gestureDirection = 2 ∧ st._gestureDirIn = 1 →
      (processSample st s)._detectedGesture = GESTURE_UP) ∧
    (dominanceStep s st._gestureDirection = 3 ∧ st._gestureDirIn = 4 →
      (processSample st s)._detectedGesture = GESTURE_RIGHT) ∧
    (dominanceStep s st._gestureDirection = 4 ∧ st._gestureDirIn = 3 →
      (processSample st s)._detectedGesture = GESTURE_LEFT) ∧
    (¬ (dominanceStep s st._gestureDirection = 1 ∧ st._gestureDirIn = 2) →
      ¬ (dominanceStep s st._gestureDirection = 2 ∧ st._gestureDirIn = 1) →
      ¬ (dominanceStep s st._gestureDirection = 3 ∧ st._gestureDirIn = 4) →
      ¬ (dominanceStep s st._gestureDirection = 4 ∧ st._gestureDirIn = 3) →
      (processSample st s)._detectedGesture = st._detectedGesture) := by
  rw [processSample_decay st s hb hexit]
  refine ⟨?_, ?_, ?_, ?_, ?_⟩
  · rintro ⟨h1, h2⟩
    simp [pairingStep, h1, h2]
  · rintro ⟨h1, h2⟩
    simp [pairingStep, h1, h2]
  · rintro ⟨h1, h2⟩
    simp [pairingStep, h1, h2]
  · rintro ⟨h1, h2⟩
    simp [pairingStep, h1, h2]
  · intro h1 h2 h3 h4
    simp only [pairingStep, if_neg h1, if_neg h2, if_neg h3, if_neg h4]

/-- The table of C2 at a concrete state: up held after the dominance step,
down recorded as the entry, threshold 30. -/
theorem decay_pairing_table_witness :
    (processSample { APDS9960 (-1) with _gestureDirection := 1, _gestureDirIn := 2 }
      ⟨5, 5, 5, 5⟩)._detectedGesture = GESTURE_DOWN :=
  (decay_pairing_table { APDS9960 (-1) with _gestureDirection := 1, _gestureDirIn := 2 }
    ⟨5, 5, 5, 5⟩ (by decide) (by decide)).1 ⟨by decide, by decide⟩

/-- C9: on a sample with all four channels below the threshold and a
direction held after the dominance step, both direction fields are zero and
`_gestureIn` is true afterwards, whatever the pairing gave; and for any
sample, if `_detectedGesture` changed then both direction fields are zero
afterwards. -/
theorem directions_cleared_together (st : Device) (s : Sample) :
    (allBelow st._gestureThreshold s → dominanceStep s st._gestureDirection ≠ 0 →
      (processSample st s)._gestureDirection = 0 ∧
      (processSample st s)._gestureDirIn = 0 ∧
      (processSample st s)._gestureIn = true) ∧
    ((processSample st s)._detectedGesture ≠ st._detectedGesture →
      (processSample st s)._gestureDirection = 0 ∧
      (processSample st s)._gestureDirIn = 0) := by
  constructor
  · intro hb hd
    rw [processSample_decay st s hb hd]
    exact ⟨rfl, rfl, rfl⟩
  · intro hchg
    by_cases hb : allBelow st._gestureThreshold s
    · by_cases hd : dominanceStep s st._gestureDirection = 0
      · rw [processSample_decay_idle st s hb hd] at hchg
        exact absurd rfl hchg
      · rw [processSample_decay st s hb hd]
        exact ⟨rfl, rfl⟩
    · rw [processSample_signal st s hb] at hchg
      split_ifs at hchg <;> exact absurd rfl hchg

/-- The clearing of C9 at a concrete state: left held, right recorded as the
entry, a decayed sample resolves `GESTURE_RIGHT` and clears both fields. -/
theorem directions_cleared_together_witness :
    ((processSample { APDS9960 (-1) with _gestureDirection := 3, _gestureDirIn := 4 }
        ⟨5, 5, 5, 5⟩)._gestureDirection = 0 ∧
      (processSample { APDS9960 (-1) with _gestureDirection := 3, _gestureDirIn := 4 }
        ⟨5, 5, 5, 5⟩)._gestureDirIn = 0 ∧
      (processSample { APDS9960 (-1) with _gestureDirection := 3, _gestureDirIn := 4 }
        ⟨5, 5, 5, 5⟩)._gestureIn = true) ∧
    ((processSample { APDS9960 (-1) with _gestureDirection := 3, _gestureDirIn := 4 }
        ⟨5, 5, 5, 5⟩)._gestureDirection = 0 ∧
      (processSample { APDS9960 (-1) with _gestureDirection := 3, _gestureDirIn := 4 }
        ⟨5, 5, 5, 5⟩)._gestureDirIn = 0) :=
  ⟨(directions_cleared_together
      { APDS9960 (-1) with _gestureDirection := 3, _gestureDirIn := 4 } ⟨5, 5, 5, 5⟩).1
      (by decide) (by decide),
   (directions_cleared_together
      { APDS9960 (-1) with _gestureDirection := 3, _gestureDirIn := 4 } ⟨5, 5, 5, 5⟩).2
      (by decide)⟩

/-! ## Ties -/

theorem noDominant_of_tiedAtMax (s : Sample) (h : tiedAtMax s) : noDominant s := by
  unfold tiedAtMax maxChannel at h
  unfold noDominant
  split_ifs at h <;> omega

/-- C7: when the maximum channel value is attained by two or more channels,
none of the four dominance tests holds; processing such a sample from a state
with no direction held leaves `_gestureDirection` zero and leaves
`_detectedGesture` and `_gestureDirIn` unchanged, for every threshold. -/
theorem tie_yields_no_direction (st : Device) (s : Sample)
    (htie : tiedAtMax s) (hdir : st._gestureDirection = 0) :
    (¬ (s.u > s.l ∧ s.u > s.r ∧ s.u > s.d) ∧ ¬ (s.d > s.l ∧ s.d > s.r ∧ s.d > s.u) ∧
      ¬ (s.l > s.r ∧ s.l > s.u ∧ s.l > s.d) ∧ ¬ (s.r > s.l ∧ s.r > s.u ∧ s.r > s.d)) ∧
    (processSample st s)._gestureDirection = 0 ∧
    (processSample st s)._detectedGesture = st._detectedGesture ∧
    (processSample st s)._gestureDirIn = st._gestureDirIn := by
  have hno : noDominant s := noDominant_of_tiedAtMax s htie
  have hstep : dominanceStep s st._gestureDirection = 0 := by
    rw [dominanceStep_of_noDominant s _ hno, hdir]
  refine ⟨hno, ?_⟩
  by_cases hb : allBelow st._gestureThreshold s
  · rw [processSample_decay_idle st s hb hstep]
    exact ⟨rfl, rfl, rfl⟩
  · rw [processSample_signal st s hb, hstep]
    simp

/-- The tie of C7 at a concrete sample: up and down both at the maximum 200,
above the threshold 30, after a decayed state with up recorded as the entry. -/
theorem tie_yields_no_direction_witness :
    (processSample { APDS9960 (-1) with _gestureIn := true, _gestureDirIn := 1 }
        ⟨200, 200, 10, 10⟩)._gestureDirection = 0 ∧
    (processSample { APDS9960 (-1) with _gestureIn := true, _gestureDirIn := 1 }
        ⟨200, 200, 10, 10⟩)._detectedGesture = GESTURE_NONE ∧
    (processSample { APDS9960 (-1) with _gestureIn := true, _gestureDirIn := 1 }
        ⟨200, 200, 10, 10⟩)._gestureDirIn = 1 :=
  (tie_yields_no_direction { APDS9960 (-1) with _gestureIn := true, _gestureDirIn := 1 }
    ⟨200, 200, 10, 10⟩ (by decide) rfl).2

/-! ## What a swipe resolves to -/

/-- C10: from any state with `_gestureIn` true, a sample dominated by `x`
above the noise floor, then one dominated by the opposite direction above the
noise floor, then a decayed sample with no dominant channel, resolve the
gesture named `x` and clear both direction fields; without the second sample
`_detectedGesture` stays as it was. -/
theorem entry_then_opposite_resolves_entry (st : Device) (x : Nat) (s1 s2 s3 : Sample)
    (hx : x = 1 ∨ x = 2 ∨ x = 3 ∨ x = 4)
    (hin : st._gestureIn = true)
    (h1 : dominantIn x s1) (h1a : ¬ allBelow st._gestureThreshold s1)
    (h2 : dominantIn (opposite x) s2) (h2a : ¬ allBelow st._gestureThreshold s2)
    (h3 : allBelow st._gestureThreshold s3) (h3n : noDominant s3) :
    (processSamples st [s1, s2, s3])._detectedGesture = gestureNamed x ∧
    (processSamples st [s1, s2, s3])._gestureDirection = 0 ∧
    (processSamples st [s1, s2, s3])._gestureDirIn = 0 ∧
    (processSamples st [s1, s3])._detectedGesture = st._detectedGesture := by
  have hx0 : x ≠ 0 := dominantIn_ne_zero x s1 h1
  have ho0 : opposite x ≠ 0 := dominantIn_ne_zero _ s2 h2
  obtain ⟨pin, en, gin, dir, dirIn, thr, g⟩ := st
  simp only at hin h1a h2a h3
  subst hin
  have e1 : processSample ⟨pin, en, true, dir, dirIn, thr, g⟩ s1 =
      ⟨pin, en, false, x, x, thr, g⟩ := by
    rw [processSample_signal ⟨pin, en, true, dir, dirIn, thr, g⟩ s1 h1a,
      dominanceStep_of_dominantIn x s1 _ h1]
    simp [hx0]
  have e2 : processSample ⟨pin, en, false, x, x, thr, g⟩ s2 =
      ⟨pin, en, false, opposite x, x, thr, g⟩ := by
    rw [processSample_signal ⟨pin, en, false, x, x, thr, g⟩ s2 h2a,
      dominanceStep_of_dominantIn _ s2 _ h2]
    simp
  have e3 : processSample ⟨pin, en, false, opposite x, x, thr, g⟩ s3 =
      ⟨pin, en, true, 0, 0, thr, pairingStep (opposite x) x g⟩ := by
    rw [processSample_decay ⟨pin, en, false, opposite x, x, thr, g⟩ s3 h3
      (by rw [dominanceStep_of_noDominant s3 _ h3n]; exact ho0)]
    simp [dominanceStep_of_noDominant s3 _ h3n]
  have e4 : processSample ⟨pin, en, false, x, x, thr, g⟩ s3 =
      ⟨pin, en, true, 0, 0, thr, pairingStep x x g⟩ := by
    rw [processSample_decay ⟨pin, en, false, x, x, thr, g⟩ s3 h3
      (by rw [dominanceStep_of_noDominant s3 _ h3n]; exact hx0)]
    simp [dominanceStep_of_noDominant s3 _ h3n]
  simp only [processSamples, List.foldl_cons, List.foldl_nil]
  rw [e1, e2, e3, e4]
  exact ⟨pairingStep_opposite x _ hx, rfl, rfl, pairingStep_same x _⟩

/-- The swipe of C10 at a concrete stream: from a decayed state holding
`GESTURE_LEFT`, up-dominant, down-dominant, decay resolves `GESTURE_UP`;
up-dominant then decay leaves `GESTURE_LEFT`. -/
theorem entry_then_opposite_resolves_entry_witness :
    (processSamples { APDS9960 (-1) with _gestureIn := true, _detectedGesture := GESTURE_LEFT }
        [⟨200, 10, 10, 10⟩, ⟨10, 200, 10, 10⟩, ⟨5, 5, 5, 5⟩])._detectedGesture = GESTURE_UP ∧
    (processSamples { APDS9960 (-1) with _gestureIn := true, _detectedGesture := GESTURE_LEFT }
        [⟨200, 10, 10, 10⟩, ⟨10, 200, 10, 10⟩, ⟨5, 5, 5, 5⟩])._gestureDirection = 0 ∧
    (processSamples { APDS9960 (-1) with _gestureIn := true, _detectedGesture := GESTURE_LEFT }
        [⟨200, 10, 10, 10⟩, ⟨10, 200, 10, 10⟩, ⟨5, 5, 5, 5⟩])._gestureDirIn = 0 ∧
    (processSamples { APDS9960 (-1) with _gestureIn := true, _detectedGesture := GESTURE_LEFT }
        [⟨200, 10, 10, 10⟩, ⟨5, 5, 5, 5⟩])._detectedGesture = GESTURE_LEFT :=
  entry_then_opposite_resolves_entry
    { APDS9960 (-1) with _gestureIn := true, _detectedGesture := GESTURE_LEFT } 1
    ⟨200, 10, 10, 10⟩ ⟨10, 200, 10, 10⟩ ⟨5, 5, 5, 5⟩
    (by decide) rfl (by decide) (by decide) (by decide) (by decide) (by decide) (by decide)

/-! ## Streams from the freshly constructed object -/

theorem dominanceStep_cases (s : Sample) (dir : Nat) :
    dominanceStep s dir = dir ∨ dominantIn (dominanceStep s dir) s := by
  by_cases h : noDominant s
  · exact Or.inl (dominanceStep_of_noDominant s dir h)
  · right
    unfold noDominant at h
    unfold dominanceStep dominantIn
    simp only []
    split_ifs <;> simp_all

theorem pairingStep_ne_opposite (x y : Nat) (g : Gesture) (h : x ≠ opposite y) :
    pairingStep x y g = g := by
  unfold pairingStep
  simp only []
  split_ifs <;> first | rfl | (exfalso; simp_all [opposite])

/-- The pairing on a decayed sample with `y` both held and recorded as the
entry: it matches exactly when the decayed sample itself is dominated by the
direction opposite to `y`. -/
theorem pairingStep_after_entry (s : Sample) (y : Nat) (g : Gesture)
    (hy : y = 1 ∨ y = 2 ∨ y = 3 ∨ y = 4) :
    pairingStep (dominanceStep s y) y g =
      if dominantIn (opposite y) s then gestureNamed y else g := by
  by_cases h : dominantIn (opposite y) s
  · rw [if_pos h, dominanceStep_of_dominantIn _ s y h]
    exact pairingStep_opposite y g hy
  · rw [if_neg h]
    rcases dominanceStep_cases s y with e | e
    · rw [e]
      exact pairingStep_same y g
    · apply pairingStep_ne_opposite
      intro heq
      rw [heq] at e
      exact h e

/-- C8, as the code runs it: from the freshly constructed object with
threshold 30, the quads (200,10,10,10), (5,5,5,5), (10,200,10,10), (5,5,5,5)
resolve nothing, and `readGesture` then returns `GESTURE_NONE`. -/
theorem spec_example_resolves_nothing (intPin : Int) :
    (readGesture (processSamples (setGestureThreshold (APDS9960 intPin) 30)
      [⟨200, 10, 10, 10⟩, ⟨5, 5, 5, 5⟩, ⟨10, 200, 10, 10⟩, ⟨5, 5, 5, 5⟩])).1 = GESTURE_NONE := by
  rfl

/-- C8 as stated fails: on the stream of the example `readGesture` does not
return `GESTURE_UP`. -/
theorem spec_example_not_up :
    (readGesture (processSamples (setGestureThreshold (APDS9960 (-1)) 30)
      [⟨200, 10, 10, 10⟩, ⟨5, 5, 5, 5⟩, ⟨10, 200, 10, 10⟩, ⟨5, 5, 5, 5⟩])).1 ≠ GESTURE_UP := by
  decide

/-- C1 as stated fails: with threshold 50, left-dominant, decay, right-dominant,
decay has the stated shape and leaves `GESTURE_NONE`, not `GESTURE_RIGHT`. -/
theorem swipe_stream_counterexample :
    dominantIn 3 ⟨10, 10, 120, 10⟩ ∧ ¬ allBelow 50 ⟨10, 10, 120, 10⟩ ∧
    allBelow 50 ⟨3, 3, 3, 3⟩ ∧
    dominantIn 4 ⟨10, 10, 10, 120⟩ ∧ ¬ allBelow 50 ⟨10, 10, 10, 120⟩ ∧
    (processSamples (setGestureThreshold (APDS9960 (-1)) 50)
      [⟨10, 10, 120, 10⟩, ⟨3, 3, 3, 3⟩, ⟨10, 10, 10, 120⟩, ⟨3, 3, 3, 3⟩])._detectedGesture
        ≠ GESTURE_RIGHT := by
  decide

/-- C1, amended: from the freshly constructed object, for every threshold and
every stream [a-dominant above the noise floor, decayed, b-dominant above the
noise floor, decayed] with (a, b) one of (up, down), (left, right),
(right, left), `_detectedGesture` ends as the gesture named `b` when the last
decayed sample is itself dominated by `a`, and as `GESTURE_NONE` otherwise;
the first `readGesture` returns that value and the next `GESTURE_NONE`. -/
theorem swipe_stream_resolution (intPin : Int) (thr a b : Nat) (s1 s2 s3 s4 : Sample)
    (hab : (a = 1 ∧ b = 2) ∨ (a = 3 ∧ b = 4) ∨ (a = 4 ∧ b = 3))
    (h1 : dominantIn a s1) (h1a : ¬ allBelow thr s1) (h2 : allBelow thr s2)
    (h3 : dominantIn b s3) (h3a : ¬ allBelow thr s3) (h4 : allBelow thr s4) :
    (processSamples (setGestureThreshold (APDS9960 intPin) thr)
      [s1, s2, s3, s4])._detectedGesture =
        (if dominantIn a s4 then gestureNamed b else GESTURE_NONE) ∧
    (readGesture (processSamples (setGestureThreshold (APDS9960 intPin) thr)
      [s1, s2, s3, s4])).1 = (if dominantIn a s4 then gestureNamed b else GESTURE_NONE) ∧
    (readGesture (readGesture (processSamples (setGestureThreshold (APDS9960 intPin) thr)
      [s1, s2, s3, s4])).2).1 = GESTURE_NONE := by
  have ha0 : a ≠ 0 := dominantIn_ne_zero a s1 h1
  have hb0 : b ≠ 0 := dominantIn_ne_zero b s3 h3
  have hopp : opposite b = a := by
    rcases hab with ⟨rfl, rfl⟩ | ⟨rfl, rfl⟩ | ⟨rfl, rfl⟩ <;> rfl
  have hb : b = 1 ∨ b = 2 ∨ b = 3 ∨ b = 4 := by omega
  have e1 : processSample ⟨intPin, false, false, 0, 0, thr, GESTURE_NONE⟩ s1 =
      ⟨intPin, false, false, a, 0, thr, GESTURE_NONE⟩ := by
    rw [processSample_signal ⟨intPin, false, false, 0, 0, thr, GESTURE_NONE⟩ s1 h1a,
      dominanceStep_of_dominantIn a s1 _ h1]
    simp
  have e2 : processSample ⟨intPin, false, false, a, 0, thr, GESTURE_NONE⟩ s2 =
      ⟨intPin, false, true, 0, 0, thr, GESTURE_NONE⟩ := by
    rw [processSample_decay ⟨intPin, false, false, a, 0, thr, GESTURE_NONE⟩ s2 h2
      (dominanceStep_ne_zero s2 a ha0)]
    simp [pairingStep_entry_zero]
  have e3 : processSample ⟨intPin, false, true, 0, 0, thr, GESTURE_NONE⟩ s3 =
      ⟨intPin, false, false, b, b, thr, GESTURE_NONE⟩ := by
    rw [processSample_signal ⟨intPin, false, true, 0, 0, thr, GESTURE_NONE⟩ s3 h3a,
      dominanceStep_of_dominantIn b s3 _ h3]
    simp [hb0]
  have e4 : processSample ⟨intPin, false, false, b, b, thr, GESTURE_NONE⟩ s4 =
      ⟨intPin, false, true, 0, 0, thr,
        if dominantIn a s4 then gestureNamed b else GESTURE_NONE⟩ := by
    rw [processSample_decay ⟨intPin, false, false, b, b, thr, GESTURE_NONE⟩ s4 h4
      (dominanceStep_ne_zero s4 b hb0)]
    simp only [pairingStep_after_entry s4 b GESTURE_NONE hb, hopp]
  have e : processSamples (setGestureThreshold (APDS9960 intPin) thr) [s1, s2, s3, s4] =
      ⟨intPin, false, true, 0, 0, thr,
        if dominantIn a s4 then gestureNamed b else GESTURE_NONE⟩ := by
    simp only [processSamples, List.foldl_cons, List.foldl_nil, setGestureThreshold, APDS9960]
    rw [e1, e2, e3, e4]
  rw [e]
  exact ⟨rfl, rfl, rfl⟩

/-- The stream of C1 at concrete inputs: threshold 30, up-dominant, decay,
down-dominant, then a decayed sample that is still up-dominant, resolves
`GESTURE_DOWN`. -/
theorem swipe_stream_resolution_witness :
    (processSamples (setGestureThreshold (APDS9960 (-1)) 30)
      [⟨200, 10, 10, 10⟩, ⟨5, 5, 5, 5⟩, ⟨10, 200, 10, 10⟩, ⟨9, 5, 5, 5⟩])._detectedGesture
        = GESTURE_DOWN :=
  (swipe_stream_resolution (-1) 30 1 2
    ⟨200, 10, 10, 10⟩ ⟨5, 5, 5, 5⟩ ⟨10, 200, 10, 10⟩ ⟨9, 5, 5, 5⟩
    (by decide) (by decide) (by decide) (by decide) (by decide) (by decide) (by decide)).1

theorem processSamples_noise (thr : Nat) (samples : List Sample)
    (hnoise : ∀ s ∈ samples, allBelow thr s) (st : Device)
    (hthr : st._gestureThreshold = thr) (hin : st._gestureDirIn = 0)
    (hg : st._detectedGesture = GESTURE_NONE) :
    (processSamples st samples)._gestureThreshold = thr ∧
    (processSamples st samples)._gestureDirIn = 0 ∧
    (processSamples st samples)._detectedGesture = GESTURE_NONE := by
  induction samples generalizing st with
  | nil => exact ⟨hthr, hin, hg⟩
  | cons s rest ih =>
    have hs : allBelow st._gestureThreshold s := by
      rw [hthr]
      exact hnoise s (List.mem_cons_self s rest)
    have hrest : ∀ t ∈ rest, allBelow thr t := fun t ht =>
      hnoise t (List.mem_cons_of_mem s ht)
    show (processSamples (processSample st s) rest)._gestureThreshold = thr ∧ _
    by_cases hd : dominanceStep s st._gestureDirection = 0
    · apply ih hrest
      · rw [processSample_threshold, hthr]
      · rw [processSample_decay_idle st s hs hd]
        exact hin
      · rw [processSample_decay_idle st s hs hd]
        exact hg
    · apply ih hrest
      · rw [processSample_threshold, hthr]
      · rw [processSample_decay st s hs hd]
      · rw [processSample_decay st s hs hd]
        simp only [hin, hg]
        exact pairingStep_entry_zero _ _

/-- C3: from the freshly constructed object, for every threshold and every
stream whose samples all have the four channels strictly below the threshold,
`_detectedGesture` is `GESTURE_NONE` after each initial segment of the stream,
so `pollAvailable` is false throughout. -/
theorem noise_never_triggers (intPin : Int) (thr : Nat) (samples : List Sample)
    (hnoise : ∀ s ∈ samples, allBelow thr s) (k : Nat) :
    (processSamples (setGestureThreshold (APDS9960 intPin) thr)
      (samples.take k))._detectedGesture = GESTURE_NONE ∧
    pollAvailable (processSamples (setGestureThreshold (APDS9960 intPin) thr)
      (samples.take k)) = false := by
  have h := (processSamples_noise thr (samples.take k)
    (fun s hs => hnoise s (List.mem_of_mem_take hs))
    (setGestureThreshold (APDS9960 intPin) thr) rfl rfl rfl).2.2
  refine ⟨h, ?_⟩
  simp [pollAvailable, h]

/-- The noise stream of C3 at concrete inputs: three decayed samples, two of
them with a dominant channel, threshold 30, cut after the second. -/
theorem noise_never_triggers_witness :
    (processSamples (setGestureThreshold (APDS9960 (-1)) 30)
      ([⟨9, 5, 5, 5⟩, ⟨5, 9, 5, 5⟩, ⟨5, 5, 5, 5⟩].take 2))._detectedGesture = GESTURE_NONE ∧
    pollAvailable (processSamples (setGestureThreshold (APDS9960 (-1)) 30)
      ([⟨9, 5, 5, 5⟩, ⟨5, 9, 5, 5⟩, ⟨5, 5, 5, 5⟩].take 2)) = false :=
  noise_never_triggers (-1) 30 [⟨9, 5, 5, 5⟩, ⟨5, 9, 5, 5⟩, ⟨5, 5, 5, 5⟩] (by decide) 2

/-! ## The sample loop over the raw buffer -/

theorem sampleLoopFrom_eq_processSamples (fifo_data : List Nat) (bytes_read : Nat) :
    ∀ (fuel i : Nat) (st : Device), (bytes_read - i + 3) / 4 ≤ fuel →
      sampleLoopFrom fuel fifo_data bytes_read i st =
        processSamples st
          ((List.range ((bytes_read - i + 3) / 4)).map (fun k => quadAt fifo_data (i + 4 * k))) := by
  intro fuel
  induction fuel with
  | zero =>
    intro i st h
    have h0 : (bytes_read - i + 3) / 4 = 0 := by omega
    rw [h0]
    rfl
  | succ fuel ih =>
    intro i st h
    unfold sampleLoopFrom
    by_cases hi : i < bytes_read
    · have hc : (bytes_read - i + 3) / 4 = (bytes_read - (i + 4) + 3) / 4 + 1 := by omega
      rw [if_pos hi, ih (i + 4) _ (by omega), hc, List.range_succ_eq_map]
      simp only [List.map_cons, List.map_map, processSamples, List.foldl_cons]
      have hf : ((fun k => quadAt fifo_data (i + 4 * k)) ∘ Nat.succ) =
          (fun k => quadAt fifo_data (i + 4 + 4 * k)) := by
        funext k
        show quadAt fifo_data (i + 4 * (k + 1)) = quadAt fifo_data (i + 4 + 4 * k)
        congr 1
        omega
      rw [hf]
      rfl
    · have h0 : (bytes_read - i + 3) / 4 = 0 := by omega
      rw [if_neg hi, h0]
      rfl

/-- The sample loop runs the loop body on the quads at indices 0, 4, 8, ...,
one for every started group of four bytes: `bytes_read / 4` rounded up. -/
theorem sampleLoop_eq_processSamples (fifo_data : List Nat) (bytes_read : Nat) (st : Device) :
    sampleLoop fifo_data bytes_read st =
      processSamples st
        ((List.range ((bytes_read + 3) / 4)).map (fun k => quadAt fifo_data (4 * k))) := by
  unfold sampleLoop
  rw [sampleLoopFrom_eq_processSamples fifo_data bytes_read bytes_read 0 st (by omega)]
  simp

/-- C4 fails on the code: with `bytes_read = 5` the loop runs its body on a
second quad made of byte 4 and the three buffer bytes behind it.  Two 128-byte
buffers that agree on their first five bytes give different states, and
neither is the state after the one complete quad. -/
theorem partial_quad_is_processed :
    (([5, 5, 5, 5, 200, 10, 10, 10] ++ List.replicate 120 0).take 5 =
      ([5, 5, 5, 5, 200, 250, 10, 10] ++ List.replicate 120 0).take 5) ∧
    sampleLoop ([5, 5, 5, 5, 200, 10, 10, 10] ++ List.replicate 120 0) 5 (APDS9960 (-1)) =
      { APDS9960 (-1) with _gestureDirection := 1, _gestureDirIn := 1 } ∧
    sampleLoop ([5, 5, 5, 5, 200, 250, 10, 10] ++ List.replicate 120 0) 5 (APDS9960 (-1)) =
      { APDS9960 (-1) with _gestureDirection := 2, _gestureDirIn := 2 } ∧
    processSamples (APDS9960 (-1)) [⟨5, 5, 5, 5⟩] =
      { APDS9960 (-1) with _gestureIn := true } := by
  decide

/-! ## Polling -/

theorem handleGesture_returns (polls : List FifoPoll) :
    ∀ st : Device, (∃ p ∈ polls, stopsPolling p) → ∃ st2, handleGesture polls st = some st2 := by
  induction polls with
  | nil =>
    rintro st ⟨p, hp, _⟩
    exact absurd hp (List.not_mem_nil p)
  | cons q rest ih =>
    rintro st ⟨p, hp, hstop⟩
    unfold handleGesture
    by_cases h1 : q.available ≤ 0
    · exact ⟨st, by rw [if_pos h1]⟩
    · by_cases h2 : q.bytes_read = 0
      · exact ⟨st, by rw [if_neg h1, if_pos h2]⟩
      · have hrest : ∃ p ∈ rest, stopsPolling p := by
          rcases List.mem_cons.mp hp with rfl | hmem
          · rcases hstop with h | h
            · exact absurd h h1
            · exact absurd h h2
          · exact ⟨p, hmem, hstop⟩
        rw [if_neg h1, if_neg h2]
        split_ifs
        · exact ih st hrest
        · exact ih _ hrest

theorem gestureAvailable_gate_closed (st : Device) (inp : Inputs)
    (hg : gateOpen st inp = false) :
    gestureAvailable st inp = some (0, gestureEnabledSet st) := by
  have hpin : (gestureEnabledSet st)._intPin = st._intPin := by
    unfold gestureEnabledSet
    split_ifs <;> rfl
  unfold gateOpen at hg
  show (if (gestureEnabledSet st)._intPin > -1 then _ else _) = _
  rw [hpin]
  by_cases hp : st._intPin > -1
  · rw [if_pos hp] at hg
    rw [if_pos hp, if_pos hg]
    rfl
  · rw [if_neg hp] at hg
    have hprobe : inp.probe ≤ 0 := by
      have := of_decide_eq_false hg
      omega
    rw [if_neg hp, if_pos hprobe]
    rfl

theorem gestureAvailable_gate_open (st : Device) (inp : Inputs)
    (hg : gateOpen st inp = true) :
    gestureAvailable st inp = gestureAvailableTail (gestureEnabledSet st) inp := by
  have hpin : (gestureEnabledSet st)._intPin = st._intPin := by
    unfold gestureEnabledSet
    split_ifs <;> rfl
  unfold gateOpen at hg
  show (if (gestureEnabledSet st)._intPin > -1 then _ else _) = _
  rw [hpin]
  by_cases hp : st._intPin > -1
  · rw [if_pos hp] at hg
    rw [if_pos hp, if_neg (by simp [hg])]
    rfl
  · rw [if_neg hp] at hg
    have hprobe : ¬ inp.probe ≤ 0 := by
      have := of_decide_eq_true hg
      omega
    rw [if_neg hp, if_neg hprobe]
    rfl

/-- C6 as stated fails: with no interrupt pin, `GESTURE_UP` held and
`gestureFIFOAvailable()` reporting no valid data (-2), `gestureAvailable`
returns 0 although `_detectedGesture` is not `GESTURE_NONE` on return. -/
theorem gestureAvailable_hides_held_gesture :
    (gestureAvailable
        { APDS9960 (-1) with _gestureEnabled := true, _detectedGesture := GESTURE_UP }
        { pinLow := false, probe := -2, polls := [] }).map
      (fun ret => (ret.1, ret.2._detectedGesture)) = some (0, GESTURE_UP) := by
  decide

/-- C6, amended: with the gate closed (a pin is configured and does not read
LOW, or no pin is configured and `gestureFIFOAvailable()` is not positive)
`gestureAvailable` returns 0 and only sets `_gestureEnabled`; with the gate
open it returns as soon as one bus answer stops the polling loop; and whenever
it returns, the value is 0 or 1, and it is 1 exactly when the gate was open
and `_detectedGesture` is not `GESTURE_NONE` on return. -/
theorem gestureAvailable_gated (st : Device) (inp : Inputs) :
    (gateOpen st inp = false → gestureAvailable st inp = some (0, gestureEnabledSet st)) ∧
    (gateOpen st inp = true → (∃ p ∈ inp.polls, stopsPolling p) →
      ∃ st2, gestureAvailable st inp =
        some (if st2._detectedGesture = GESTURE_NONE then 0 else 1, st2)) ∧
    (∀ (r : Int) (st2 : Device), gestureAvailable st inp = some (r, st2) →
      (r = 1 ↔ gateOpen st inp = true ∧ st2._detectedGesture ≠ GESTURE_NONE) ∧
      (r = 0 ∨ r = 1)) := by
  refine ⟨gestureAvailable_gate_closed st inp, ?_, ?_⟩
  · intro hg hstop
    obtain ⟨st2, h2⟩ := handleGesture_returns inp.polls (gestureEnabledSet st) hstop
    refine ⟨st2, ?_⟩
    rw [gestureAvailable_gate_open st inp hg]
    unfold gestureAvailableTail
    rw [h2]
  · intro r st2 h
    cases hg : gateOpen st inp with
    | false =>
      rw [gestureAvailable_gate_closed st inp hg] at h
      simp only [Option.some.injEq, Prod.mk.injEq] at h
      obtain ⟨hr, _⟩ := h
      subst hr
      simp
    | true =>
      rw [gestureAvailable_gate_open st inp hg] at h
      unfold gestureAvailableTail at h
      cases hh : handleGesture inp.polls (gestureEnabledSet st) with
      | none =>
        rw [hh] at h
        exact absurd h (by simp)
      | some st3 =>
        rw [hh] at h
        simp only [Option.some.injEq, Prod.mk.injEq] at h
        obtain ⟨hr, hst⟩ := h
        subst hst
        subst hr
        by_cases hn : st3._detectedGesture = GESTURE_NONE
        · simp [hn]
        · simp [hn]

/-- The gate of C6 at concrete inputs: an interrupt pin reading LOW, one FIFO
turn delivering the quads (200,10,10,10), (10,200,10,10), (5,5,5,5) after a
decayed state, then an empty FIFO: the call returns 1 with `GESTURE_UP` held. -/
theorem gestureAvailable_gated_witness :
    gateOpen { APDS9960 2 with _gestureIn := true }
      { pinLow := true, probe := 0,
        polls := [⟨3, 12, [200, 10, 10, 10, 10, 200, 10, 10, 5, 5, 5, 5]⟩, ⟨0, 0, []⟩] } = true ∧
    ∃ st2, gestureAvailable { APDS9960 2 with _gestureIn := true }
      { pinLow := true, probe := 0,
        polls := [⟨3, 12, [200, 10, 10, 10, 10, 200, 10, 10, 5, 5, 5, 5]⟩, ⟨0, 0, []⟩] } =
        some (if st2._detectedGesture = GESTURE_NONE then 0 else 1, st2) :=
  ⟨by decide,
   (gestureAvailable_gated { APDS9960 2 with _gestureIn := true }
      { pinLow := true, probe := 0,
        polls := [⟨3, 12, [200, 10, 10, 10, 10, 200, 10, 10, 5, 5, 5, 5]⟩, ⟨0, 0, []⟩] }).2.1
      (by decide) ⟨⟨0, 0, []⟩, by decide, by decide⟩⟩

end Arduino_APDS9960
